import Mathlib

/-!
# Verification of the cannabis-intelligence-index extraction/validation core

Shallow embedding of the three-stage pipeline of the repository:

* `src/ingestion/data_extractor.py` — the multi-strategy Extractor
  (its strategy-merge loop and its regex pattern-matching strategy),
* `src/processing/medallion_processor.py` — the Normalizer
  (bronze → gold: height, flowering, percentage, genetics, effects,
  flavors, confidence score),
* `src/utils/outlier_detection.py` — the Outlier Detector
  (bound checks, impossible combinations, suspicious patterns, summary).

Python strings are modelled as `String` / `List Char`; Python floats as
exact rationals `ℚ` (every arithmetic step the code performs on the values
in scope is modelled exactly, and no comparison in the claims is close
enough to a representation boundary for binary-float rounding to change
its outcome); Python ints as `ℕ`/`ℤ`; Python dicts as association lists
with in-place-overwrite update, exactly the observable behaviour of
`dict.__setitem__`/`dict.update`; `None` and lookup misses as `none`.

Rational arithmetic goes through the kernel-computable wrappers `qAdd`,
`qSub`, `qMul`, `qDiv`, `qAbs`, `qMax` (the library `Rat.add` etc. are
marked irreducible, which blocks `decide`); the bridge lemmas `qAdd_eq` …
prove them equal to the ordinary `ℚ` operations, so theorem statements can
use ordinary `+`, `-`, `*`, `/`, `|·|`.
-/

/-! ## Kernel-computable rational arithmetic -/

/-- Exact rational addition, via `mkRat` (kernel-computable). -/
def qAdd (a b : ℚ) : ℚ := mkRat (a.num * b.den + b.num * a.den) (a.den * b.den)

/-- Exact rational subtraction, via `mkRat` (kernel-computable). -/
def qSub (a b : ℚ) : ℚ := mkRat (a.num * b.den - b.num * a.den) (a.den * b.den)

/-- Exact rational multiplication, via `mkRat` (kernel-computable). -/
def qMul (a b : ℚ) : ℚ := mkRat (a.num * b.num) (a.den * b.den)

/-- Exact rational inverse, via `mkRat` (kernel-computable); `qInv 0 = 0`. -/
def qInv (a : ℚ) : ℚ :=
  if a.num < 0 then mkRat (-(a.den : ℤ)) a.num.natAbs else mkRat (a.den : ℤ) a.num.natAbs

/-- Exact rational division, via `mkRat` (kernel-computable). -/
def qDiv (a b : ℚ) : ℚ := qMul a (qInv b)

/-- Absolute value on `ℚ` (kernel-computable). -/
def qAbs (a : ℚ) : ℚ := if a < 0 then mkRat (-a.num) a.den else a

/-- Binary maximum on `ℚ`, as Python `max(a, b)` (kernel-computable). -/
def qMax (a b : ℚ) : ℚ := if a < b then b else a

theorem rat_mul_den (a : ℚ) : (a : ℚ) * (a.den : ℚ) = (a.num : ℚ) := by
  have ha : ((a.den : ℚ)) ≠ 0 := Nat.cast_ne_zero.mpr a.den_nz
  have h := Rat.num_div_den a
  rw [div_eq_iff ha] at h
  exact h.symm

theorem qAdd_eq (a b : ℚ) : qAdd a b = a + b := by
  have ha : ((a.den : ℚ)) ≠ 0 := Nat.cast_ne_zero.mpr a.den_nz
  have hb : ((b.den : ℚ)) ≠ 0 := Nat.cast_ne_zero.mpr b.den_nz
  unfold qAdd
  rw [Rat.mkRat_eq_div]
  push_cast
  rw [div_eq_iff (mul_ne_zero ha hb), ← rat_mul_den a, ← rat_mul_den b]
  ring

theorem qSub_eq (a b : ℚ) : qSub a b = a - b := by
  have ha : ((a.den : ℚ)) ≠ 0 := Nat.cast_ne_zero.mpr a.den_nz
  have hb : ((b.den : ℚ)) ≠ 0 := Nat.cast_ne_zero.mpr b.den_nz
  unfold qSub
  rw [Rat.mkRat_eq_div]
  push_cast
  rw [div_eq_iff (mul_ne_zero ha hb), ← rat_mul_den a, ← rat_mul_den b]
  ring

theorem qMul_eq (a b : ℚ) : qMul a b = a * b := by
  have ha : ((a.den : ℚ)) ≠ 0 := Nat.cast_ne_zero.mpr a.den_nz
  have hb : ((b.den : ℚ)) ≠ 0 := Nat.cast_ne_zero.mpr b.den_nz
  unfold qMul
  rw [Rat.mkRat_eq_div]
  push_cast
  rw [div_eq_iff (mul_ne_zero ha hb), ← rat_mul_den a, ← rat_mul_den b]
  ring

theorem qInv_eq (a : ℚ) : qInv a = a⁻¹ := by
  have hd : ((a.den : ℚ)) ≠ 0 := Nat.cast_ne_zero.mpr a.den_nz
  by_cases h0 : a.num = 0
  · have ha : a = 0 := Rat.zero_iff_num_zero.mpr h0
    simp [qInv, h0, ha]
  · have hnum : ((a.num : ℚ)) ≠ 0 := Int.cast_ne_zero.mpr h0
    refine (inv_eq_of_mul_eq_one_right ?_).symm
    unfold qInv
    rcases lt_or_ge a.num 0 with h | h
    · rw [if_pos h, Rat.mkRat_eq_div]
      push_cast [Int.cast_natAbs]
      rw [abs_of_neg (by exact_mod_cast h : ((a.num : ℚ)) < 0)]
      rw [div_neg, neg_div, neg_neg, ← rat_mul_den a]
      field_simp
    · rw [if_neg (not_lt.mpr h), Rat.mkRat_eq_div]
      push_cast [Int.cast_natAbs]
      rw [abs_of_nonneg (by exact_mod_cast h : (0 : ℚ) ≤ ((a.num : ℚ))), ← rat_mul_den a]
      field_simp

theorem qDiv_eq (a b : ℚ) : qDiv a b = a / b := by
  rw [qDiv, qMul_eq, qInv_eq, div_eq_mul_inv]

theorem qAbs_eq (a : ℚ) : qAbs a = |a| := by
  unfold qAbs
  split
  · rw [Rat.mkRat_eq_div]
    push_cast
    rw [neg_div, Rat.num_div_den, abs_of_neg (by assumption)]
  · rw [abs_of_nonneg (not_lt.mp (by assumption))]

theorem qMax_eq (a b : ℚ) : qMax a b = max a b := by
  unfold qMax
  split
  · rw [max_eq_right (le_of_lt (by assumption))]
  · rw [max_eq_left (not_lt.mp (by assumption))]

/-! ## Python string primitives -/

namespace PyStr

/-- ASCII lower-casing of one character, as Python `str.lower` does on the
character set appearing in this repository's data. -/
def lowerChar (c : Char) : Char :=
  if 'A' ≤ c ∧ c ≤ 'Z' then Char.ofNat (c.toNat + 32) else c

/-- `str.lower`. -/
def lower (s : String) : String := ⟨s.data.map lowerChar⟩

/-- The default whitespace set of Python `str.strip` / regex `\s`
(space, tab, newline, carriage return, form feed, vertical tab). -/
def isSpaceChar (c : Char) : Bool :=
  c = ' ' ∨ c = '\t' ∨ c = '\n' ∨ c = '\r' ∨ c = '\x0c' ∨ c = '\x0b'

/-- `str.strip()`: drop leading and trailing whitespace. -/
def strip (s : String) : String :=
  ⟨((s.data.dropWhile isSpaceChar).reverse.dropWhile isSpaceChar).reverse⟩

/-- Python substring containment `sub in s`. -/
def containsSub (s sub : String) : Bool :=
  s.data.tails.any (fun t => sub.data.isPrefixOf t)

/-- Python `", ".join` over a list of strings. -/
def joinCommaSep : List String → String
  | [] => ""
  | [x] => x
  | x :: xs => x ++ ", " ++ joinCommaSep xs

end PyStr

/-! ## Python dict model

A Python dict is modelled as an association list in insertion order.
`setKey` is `d[k] = v` (replace in place if the key exists, else append);
`dictUpdate` is `d.update(e)`; `dictGet` is `d.get(k)` (`none` on a miss).
The dicts produced by the code never carry duplicate keys; lemmas that
need this take a `Nodup` hypothesis on the key list. -/

/-- A Python string-valued dict. -/
abbrev Dict := List (String × String)

/-- `d[k] = v`: replace the value in place if `k` is present, else append. -/
def setKey : Dict → String → String → Dict
  | [], k, v => [(k, v)]
  | (k0, v0) :: rest, k, v =>
    if k0 = k then (k0, v) :: rest else (k0, v0) :: setKey rest k v

/-- `d.get(k)`. -/
def dictGet (d : Dict) (k : String) : Option String :=
  (d.find? (fun kv => kv.1 == k)).map Prod.snd

/-- `d.update(e)`. -/
def dictUpdate (d e : Dict) : Dict :=
  e.foldl (fun acc kv => setKey acc kv.1 kv.2) d

/-- The key list of a dict. -/
def dictKeys (d : Dict) : List String := d.map Prod.fst

theorem dictGet_cons (k0 v0 : String) (rest : Dict) (k : String) :
    dictGet ((k0, v0) :: rest) k = if k0 = k then some v0 else dictGet rest k := by
  by_cases h : k0 = k
  · rw [dictGet, List.find?_cons_of_pos _ (by simpa using h), if_pos h]
    rfl
  · rw [dictGet, List.find?_cons_of_neg _ (by simpa using h), if_neg h]
    rfl

theorem dictGet_setKey_same (d : Dict) (k v : String) :
    dictGet (setKey d k v) k = some v := by
  induction d with
  | nil => simp [setKey, dictGet]
  | cons kv rest ih =>
    obtain ⟨k0, v0⟩ := kv
    by_cases h : k0 = k
    · subst h
      simp [setKey, dictGet_cons]
    · simp only [setKey, if_neg h, dictGet_cons]
      exact ih

theorem dictGet_setKey_other (d : Dict) (k v k' : String) (hk : k' ≠ k) :
    dictGet (setKey d k v) k' = dictGet d k' := by
  induction d with
  | nil => simp [setKey, dictGet_cons, Ne.symm hk]
  | cons kv rest ih =>
    obtain ⟨k0, v0⟩ := kv
    by_cases h : k0 = k
    · subst h
      simp [setKey, dictGet_cons, Ne.symm hk]
    · by_cases h' : k0 = k'
      · simp [setKey, if_neg h, dictGet_cons, if_pos h']
      · simp only [setKey, if_neg h, dictGet_cons, if_neg h']
        exact ih

theorem dictGet_eq_none_of_not_mem_keys (d : Dict) (k : String)
    (h : k ∉ dictKeys d) : dictGet d k = none := by
  induction d with
  | nil => rfl
  | cons kv rest ih =>
    obtain ⟨k0, v0⟩ := kv
    simp only [dictKeys, List.map_cons, List.mem_cons, not_or] at h
    rw [dictGet_cons, if_neg (fun h' => h.1 h'.symm)]
    exact ih (by simpa [dictKeys] using h.2)

theorem dictGet_dictUpdate (d e : Dict) (k : String)
    (h : (dictKeys e).Nodup) :
    dictGet (dictUpdate d e) k = ((dictGet e k).orElse (fun _ => dictGet d k)) := by
  induction e generalizing d with
  | nil => simp [dictUpdate, dictGet, Option.orElse]
  | cons kv rest ih =>
    obtain ⟨k0, v0⟩ := kv
    simp only [dictKeys, List.map_cons, List.nodup_cons] at h
    have hrec := ih (setKey d k0 v0) h.2
    by_cases hk : k0 = k
    · subst hk
      rw [dictUpdate, List.foldl_cons, ← dictUpdate, hrec,
        dictGet_eq_none_of_not_mem_keys rest k0 h.1, dictGet_setKey_same,
        dictGet_cons, if_pos rfl]
      rfl
    · rw [dictUpdate, List.foldl_cons, ← dictUpdate, hrec,
        dictGet_setKey_other d k0 v0 k (fun h' => hk h'.symm),
        dictGet_cons, if_neg hk]

/-! ## Regex model for the numeric patterns of the Normalizer

The Normalizer's patterns all share the shape
`NUM \s* -? \s* NUM? \s* UNIT` (where `NUM` is `\d+(?:\.\d+)?` for the
cm/feet/percent patterns and `\d+` for the week/day patterns), plus the
genetics pattern `(\d+)\s*%\s*(sativa|indica)`.  `re.search` is modelled
as leftmost match over the positions of the string; at one position the
greedy digit runs, the optional dot-digits part, the optional dash and the
whitespace runs are committed without backtracking, which agrees with
Python's backtracking preference order for this pattern family: whenever
the committed (maximal-munch) alternative fails, every backtracking
alternative leaves the continuation looking at a digit or a lone dot,
which no continuation of these patterns can consume. -/

namespace PyRe

/-- Regex `\d` (ASCII digits, the only digits in this data). -/
def isDigitChar (c : Char) : Bool := '0' ≤ c ∧ c ≤ '9'

/-- Split the maximal leading digit run. -/
def takeDigits : List Char → List Char × List Char
  | [] => ([], [])
  | c :: cs =>
    if isDigitChar c then
      let p := takeDigits cs
      (c :: p.1, p.2)
    else ([], c :: cs)

/-- Value of a digit run. -/
def digitsToNat (ds : List Char) : ℕ := ds.foldl (fun n c => 10 * n + (c.toNat - 48)) 0

/-- Value of `intDs . fracDs` as an exact rational (Python `float` of the
matched text, modelled exactly). -/
def decToQ (intDs fracDs : List Char) : ℚ :=
  mkRat (digitsToNat intDs * 10 ^ fracDs.length + digitsToNat fracDs) (10 ^ fracDs.length)

/-- Match `\d+(?:\.\d+)?` (just `\d+` when `allowDec` is false) at the head;
returns the integer and fractional digit groups and the rest. -/
def scanNum (allowDec : Bool) (cs : List Char) : Option ((List Char × List Char) × List Char) :=
  match takeDigits cs with
  | ([], _) => none
  | (ds, rest) =>
    if allowDec then
      match rest with
      | '.' :: rest2 =>
        match takeDigits rest2 with
        | ([], _) => some ((ds, []), rest)
        | (fs, rest3) => some ((ds, fs), rest3)
      | _ => some ((ds, []), rest)
    else some ((ds, []), rest)

/-- Regex `\s*`. -/
def dropWs : List Char → List Char := List.dropWhile PyStr.isSpaceChar

/-- Regex `-?`. -/
def dropDash : List Char → List Char
  | '-' :: cs => cs
  | cs => cs

def lowerList (cs : List Char) : List Char := cs.map PyStr.lowerChar

/-- Does one of the (lower-case) unit alternatives match at this position,
case-insensitively?  The unit is the final element of the pattern, so any
alternative succeeding completes the match. -/
def unitAt (units : List String) (cs : List Char) : Bool :=
  units.any (fun u => u.data.isPrefixOf (lowerList cs))

/-- Match `NUM \s* -? \s* NUM? \s* UNIT` at this position. -/
def scanRangeAt (allowDec : Bool) (units : List String) (cs : List Char) :
    Option ((List Char × List Char) × Option (List Char × List Char)) :=
  match scanNum allowDec cs with
  | none => none
  | some (n1, r1) =>
    let r3 := dropWs (dropDash (dropWs r1))
    match scanNum allowDec r3 with
    | some (n2, r4) => if unitAt units (dropWs r4) then some (n1, some n2) else none
    | none => if unitAt units (dropWs r3) then some (n1, none) else none

/-- `re.search`: try the pattern at every position, leftmost match wins. -/
def searchRange (allowDec : Bool) (units : List String) :
    List Char → Option ((List Char × List Char) × Option (List Char × List Char))
  | [] => none
  | c :: cs =>
    match scanRangeAt allowDec units (c :: cs) with
    | some r => some r
    | none => searchRange allowDec units cs

/-- `re.search` of `(\d+(?:\.\d+)?)\s*-?\s*(\d+(?:\.\d+)?)?\s*UNIT` with
`re.IGNORECASE`, both capture groups converted by `float(...)`. -/
def reSearchQ (units : List String) (s : String) : Option (ℚ × Option ℚ) :=
  (searchRange true units s.data).map
    (fun p => (decToQ p.1.1 p.1.2, p.2.map (fun q => decToQ q.1 q.2)))

/-- `re.search` of `(\d+)\s*-?\s*(\d+)?\s*UNIT` with `re.IGNORECASE`, both
capture groups converted by `int(...)`. -/
def reSearchN (units : List String) (s : String) : Option (ℕ × Option ℕ) :=
  (searchRange false units s.data).map
    (fun p => (digitsToNat p.1.1, p.2.map (fun q => digitsToNat q.1)))

/-- Match `(\d+)\s*%\s*TYPE` at this position (TYPE in lower case). -/
def scanGeneticsAt (gtype : List Char) (cs : List Char) : Option ℕ :=
  match takeDigits cs with
  | ([], _) => none
  | (ds, rest) =>
    match dropWs rest with
    | '%' :: r2 =>
      if gtype.isPrefixOf (lowerList (dropWs r2)) then some (digitsToNat ds) else none
    | _ => none

/-- `re.search` of `(\d+)\s*%\s*TYPE` with `re.IGNORECASE`. -/
def searchGenetics (gtype : List Char) : List Char → Option ℕ
  | [] => none
  | c :: cs =>
    match scanGeneticsAt gtype (c :: cs) with
    | some n => some n
    | none => searchGenetics gtype cs

end PyRe

/-! ## The Normalizer: `src/processing/medallion_processor.py` -/

namespace MedallionProcessor

/-- `conversion_rules['height']['feet_to_cm'] = 30.48` (exact value). -/
def feet_to_cm : ℚ := mkRat 3048 100

/-- `conversion_rules['flowering']['weeks_to_days'] = 7`. -/
def weeks_to_days : ℕ := 7

/-- `_extract_height_range(height_raw, max_val)`.  Qualitative heights map
through `conversion_rules['height']`; otherwise the cm pattern is searched,
then the feet pattern (multiplied by `feet_to_cm`); `None`/empty input and
a search miss give `none`. -/
def _extract_height_range (height_raw : Option String) (max_val : Bool) : Option ℚ :=
  match height_raw with
  | none => none
  | some s =>
    if s = "" then none
    else
      let hl := PyStr.lower s
      if PyStr.containsSub hl "short" then some 80
      else if PyStr.containsSub hl "medium" then some 120
      else if PyStr.containsSub hl "tall" then some 180
      else
        match PyRe.reSearchQ ["cm"] s with
        | some (mn, mx) =>
          match mx, max_val with
          | some m, true => some m
          | _, _ => some mn
        | none =>
          match PyRe.reSearchQ ["feet", "ft"] s with
          | some (mn, mx) =>
            match mx, max_val with
            | some m, true => some (qMul m feet_to_cm)
            | _, _ => some (qMul mn feet_to_cm)
          | none => none

/-- `_extract_flowering_range(flowering_raw, max_val)`: week pattern first
(×7 days), else day pattern. -/
def _extract_flowering_range (flowering_raw : Option String) (max_val : Bool) : Option ℕ :=
  match flowering_raw with
  | none => none
  | some s =>
    if s = "" then none
    else
      match PyRe.reSearchN ["weeks", "week", "wks", "wk"] s with
      | some (mn, mx) =>
        match mx, max_val with
        | some m, true => some (m * weeks_to_days)
        | _, _ => some (mn * weeks_to_days)
      | none =>
        match PyRe.reSearchN ["days", "day"] s with
        | some (mn, mx) =>
          match mx, max_val with
          | some m, true => some m
          | _, _ => some mn
        | none => none

/-- `_extract_percentage_range(percentage_raw, max_val)`. -/
def _extract_percentage_range (percentage_raw : Option String) (max_val : Bool) : Option ℚ :=
  match percentage_raw with
  | none => none
  | some s =>
    if s = "" then none
    else
      match PyRe.reSearchQ ["%"] s with
      | some (mn, mx) =>
        match mx, max_val with
        | some m, true => some m
        | _, _ => some mn
      | none => none

/-- `_extract_genetics(genetics_raw, genetics_type)`; the callers pass
`'sativa'` and `'indica'` (lower case). -/
def _extract_genetics (genetics_raw : Option String) (genetics_type : String) : Option ℕ :=
  match genetics_raw with
  | none => none
  | some s =>
    if s = "" then none else PyRe.searchGenetics genetics_type.data s.data

/-- `effect_mappings` of `_standardize_effects`, in insertion order. -/
def effect_mappings : List (String × String) :=
  [("relaxing", "Relaxed"), ("euphoric", "Euphoric"), ("uplifting", "Uplifted"),
   ("energetic", "Energetic"), ("creative", "Creative"), ("focused", "Focused"),
   ("happy", "Happy"), ("sleepy", "Sleepy")]

/-- `_standardize_effects(effects_raw)`: canonical labels of the table
keywords found in the lower-cased text, joined with `", "` in table order. -/
def _standardize_effects (effects_raw : Option String) : Option String :=
  match effects_raw with
  | none => none
  | some s =>
    if s = "" then none
    else
      let low := PyStr.lower s
      let std := (effect_mappings.filter (fun m => PyStr.containsSub low m.1)).map Prod.snd
      if std.isEmpty then none else some (PyStr.joinCommaSep std)

/-- `flavor_mappings` of `_standardize_flavors`, in insertion order. -/
def flavor_mappings : List (String × String) :=
  [("citrus", "Citrus"), ("lemon", "Lemon"), ("orange", "Orange"), ("berry", "Berry"),
   ("sweet", "Sweet"), ("earthy", "Earthy"), ("pine", "Pine"), ("diesel", "Diesel"),
   ("skunk", "Skunk"), ("fruity", "Fruity")]

/-- `_standardize_flavors(flavors_raw)`. -/
def _standardize_flavors (flavors_raw : Option String) : Option String :=
  match flavors_raw with
  | none => none
  | some s =>
    if s = "" then none
    else
      let low := PyStr.lower s
      let std := (flavor_mappings.filter (fun m => PyStr.containsSub low m.1)).map Prod.snd
      if std.isEmpty then none else some (PyStr.joinCommaSep std)

/-- `field_weights` of `_calculate_confidence`, in insertion order. -/
def field_weights : List (String × ℕ) :=
  [("height_raw", 2), ("flowering_time_raw", 3), ("thc_content_raw", 3),
   ("cbd_content_raw", 2), ("genetics_raw", 2), ("effects_raw", 1), ("flavors_raw", 1)]

/-- `total_possible = sum(field_weights.values())`. -/
def total_possible : ℕ := (field_weights.map Prod.snd).sum

/-- The per-field test of the `_calculate_confidence` loop:
`bronze_data.get(field)` is truthy and `len(str(bronze_data[field]).strip()) > 2`. -/
def fieldCounted (bronze : Dict) (field : String) : Bool :=
  match dictGet bronze field with
  | none => false
  | some s => s != "" && 2 < (PyStr.strip s).length

/-- The accumulation loop of `_calculate_confidence`. -/
def actual_score (bronze : Dict) : ℕ :=
  field_weights.foldl (fun acc fw => if fieldCounted bronze fw.1 then acc + fw.2 else acc) 0

/-- The final `if percentage >= 90 … else 1` chain of `_calculate_confidence`. -/
def confidenceBucket (percentage : ℚ) : ℕ :=
  if 90 ≤ percentage then 5
  else if 70 ≤ percentage then 4
  else if 50 ≤ percentage then 3
  else if 30 ≤ percentage then 2
  else 1

/-- `_calculate_confidence(bronze_data)`:
`percentage = (actual_score / total_possible) * 100`, then bucketed. -/
def _calculate_confidence (bronze : Dict) : ℕ :=
  confidenceBucket (qMul (qDiv ((actual_score bronze : ℚ)) ((total_possible : ℚ))) 100)

/-- The gold layer produced by `process_bronze_to_gold` (fixed keys). -/
structure GoldRecord where
  height_cm_min : Option ℚ
  height_cm_max : Option ℚ
  flowering_days_min : Option ℕ
  flowering_days_max : Option ℕ
  thc_percentage_min : Option ℚ
  thc_percentage_max : Option ℚ
  cbd_percentage_min : Option ℚ
  cbd_percentage_max : Option ℚ
  sativa_percentage : Option ℕ
  indica_percentage : Option ℕ
  effects_standardized : Option String
  flavors_standardized : Option String
  confidence_score : ℕ
  deriving DecidableEq

/-- The value returned by `process_bronze_to_gold`:
`{'bronze': bronze_data, 'gold': gold_data}`. -/
structure MedallionResult where
  bronze : Dict
  gold : GoldRecord
  deriving DecidableEq

/-- `process_bronze_to_gold(bronze_data)` (gold fields in source order). -/
def process_bronze_to_gold (bronze_data : Dict) : MedallionResult :=
  ⟨bronze_data,
   ⟨_extract_height_range (dictGet bronze_data "height_raw") false,
    _extract_height_range (dictGet bronze_data "height_raw") true,
    _extract_flowering_range (dictGet bronze_data "flowering_time_raw") false,
    _extract_flowering_range (dictGet bronze_data "flowering_time_raw") true,
    _extract_percentage_range (dictGet bronze_data "thc_content_raw") false,
    _extract_percentage_range (dictGet bronze_data "thc_content_raw") true,
    _extract_percentage_range (dictGet bronze_data "cbd_content_raw") false,
    _extract_percentage_range (dictGet bronze_data "cbd_content_raw") true,
    _extract_genetics (dictGet bronze_data "genetics_raw") "sativa",
    _extract_genetics (dictGet bronze_data "genetics_raw") "indica",
    _standardize_effects (dictGet bronze_data "effects_raw"),
    _standardize_flavors (dictGet bronze_data "flavors_raw"),
    _calculate_confidence bronze_data⟩⟩

end MedallionProcessor

/-! ## The Extractor: `src/ingestion/data_extractor.py`

Only the parts the claims are about are embedded: the per-field pattern
loop of `_extract_with_patterns` (with `re.finditer` abstracted as an
oracle giving the group-1 captures of a pattern on the fixed page text, in
match order) and the strategy-merge skeleton of `extract_strain_data`
(with the five strategy outputs as parameters — each one is a finite dict
produced by the corresponding `_extract_*` method). -/

namespace CannabisDataExtractor

/-- The six ordered pattern lists of `_extract_with_patterns` (verbatim
regex source strings, in insertion order). -/
def patterns : List (String × List String) :=
  [("thc_content",
    ["THC:?\\s*([^\\n\\.]+?)(?:\\.|\\n|$)",
     "(?:THC|thc)\\s*(?:content|level|percentage)?:?\\s*([^\\n\\.]+?)(?:\\.|\\n|$)",
     "([0-9]+(?:\\.[0-9]+)?(?:\\s*-\\s*[0-9]+(?:\\.[0-9]+)?)?\\s*%\\s*THC)"]),
   ("cbd_content",
    ["CBD:?\\s*([^\\n\\.]+?)(?:\\.|\\n|$)",
     "(?:CBD|cbd)\\s*(?:content|level|percentage)?:?\\s*([^\\n\\.]+?)(?:\\.|\\n|$)",
     "([0-9]+(?:\\.[0-9]+)?(?:\\s*-\\s*[0-9]+(?:\\.[0-9]+)?)?\\s*%\\s*CBD)"]),
   ("flowering_time",
    ["(?:flowering|flower)\\s+(?:time|period):?\\s*([^\\n\\.]+?)(?:\\.|\\n|$)",
     "(?:blooms?|flowers?)\\s+(?:in|for|after)\\s*([^\\n\\.]+?)(?:\\.|\\n|$)",
     "([0-9]+(?:\\s*-\\s*[0-9]+)?\\s*(?:weeks?|days?|wks?)\\s*(?:flowering|flower|bloom))"]),
   ("height",
    ["(?:height|tall|grows?):?\\s*([^\\n\\.]+?)(?:\\.|\\n|$)",
     "(?:reaches|up to|grows to)\\s*([^\\n\\.]+?)(?:\\.|\\n|$)",
     "([0-9]+(?:\\s*-\\s*[0-9]+)?\\s*(?:cm|feet?|ft|inches?|in)\\s*(?:tall|high|height))"]),
   ("yield",
    ["(?:yield|harvest|produces?):?\\s*([^\\n\\.]+?)(?:\\.|\\n|$)",
     "(?:up to|around|approximately)\\s*([^\\n\\.]+?)(?:\\.|\\n|$)",
     "([0-9]+(?:\\s*-\\s*[0-9]+)?\\s*(?:g|grams?|oz|ounces?)\\s*(?:per|/|m2|plant))"]),
   ("genetics",
    ["(?:genetics|lineage|cross|bred from):?\\s*([^\\n\\.]+?)(?:\\.|\\n|$)",
     "([0-9]+\\s*%\\s*(?:sativa|indica)(?:\\s*[^\\n\\.]*?)?)(?:\\.|\\n|$)",
     "(?:hybrid|cross)\\s+(?:of|between)\\s*([^\\n\\.]+?)(?:\\.|\\n|$)"])]

/-- The innermost `for match in matches: if match.group(1).strip(): …; break`
loop: the first `finditer` hit whose stripped group 1 is non-empty
(Python truthiness), stripped.  `groups` is the sequence of group-1
captures `re.finditer` yields for one pattern on the page text. -/
def firstTruthyGroup (groups : List String) : Option String :=
  (groups.map PyStr.strip).find? (fun g => g != "")

/-- `_extract_with_patterns`, with `re.finditer` on the page text
abstracted as the oracle `finditer : pattern ↦ group-1 captures`.  Note the
source's `break` leaves only the innermost match loop, and its
`if f"{field_name}_raw" in pattern_data: continue` is the final statement
of the field loop's body, so later patterns of the same field still run
and overwrite (`pattern_data[...] = ...`) earlier hits. -/
def _extract_with_patterns (finditer : String → List String) : Dict :=
  patterns.foldl
    (fun pd fp =>
      fp.2.foldl
        (fun pd2 pat =>
          match firstTruthyGroup (finditer pat) with
          | some g =>
            setKey (setKey pd2 (fp.1 ++ "_raw") g) (fp.1 ++ "_source") "Pattern matching"
          | none => pd2)
        pd)
    []

/-- One field of the pattern strategy as the specification words it:
within a field, evaluation stops at the FIRST pattern in the ordered list
that finds a match with a non-empty stripped group 1. -/
def fieldValueFirstPattern (finditer : String → List String) (pats : List String) :
    Option String :=
  pats.findSome? (fun p => firstTruthyGroup (finditer p))

/-- One field of the pattern strategy as the code behaves: every pattern in
the list runs, and each hit overwrites the previous one, so the LAST
matching pattern wins. -/
def fieldValueLastPattern (finditer : String → List String) (pats : List String) :
    Option String :=
  pats.foldl
    (fun acc p =>
      match firstTruthyGroup (finditer p) with
      | some g => some g
      | none => acc)
    none

/-- The strategy-merge skeleton of `extract_strain_data`: starting from the
empty `raw_data` dict, the five strategy outputs are merged in source order
(tables → descriptions → patterns → images → metadata) with `dict.update`,
each guarded by the code's `if <data>:` truthiness check. -/
def extract_strain_data_raw
    (table_data desc_data pattern_data image_data meta_data : Dict) : Dict :=
  let d0 : Dict := []
  let d1 := if table_data.isEmpty then d0 else dictUpdate d0 table_data
  let d2 := if desc_data.isEmpty then d1 else dictUpdate d1 desc_data
  let d3 := if pattern_data.isEmpty then d2 else dictUpdate d2 pattern_data
  let d4 := if image_data.isEmpty then d3 else dictUpdate d3 image_data
  if meta_data.isEmpty then d4 else dictUpdate d4 meta_data

end CannabisDataExtractor

/-! ## The Outlier Detector: `src/utils/outlier_detection.py` -/

namespace OutlierDetection

/-- One row of the tabular dataset: numeric cell lookup by column name
(`none` models NaN or an absent column) plus the `strain_name` cell. -/
structure DFRow where
  vals : String → Option ℚ
  strainName : Option String

/-- The dataset: the frame's column list plus its rows in order (pandas
default `RangeIndex`, so row `i` has index `i`). -/
structure DataFrame where
  columns : List String
  rows : List DFRow

/-- One entry of `validation_rules`: `rmin`/`rmax` model `rules['min']` /
`rules['max']`; `typical_max` is present on the thc/cbd entries but never
read by the code (only `'typical_range' in rules` is checked). -/
structure FieldRules where
  rmin : Option ℚ
  rmax : Option ℚ
  typical_range : Option (ℚ × ℚ)
  typical_max : Option ℚ
  deriving DecidableEq

/-- `validation_rules`, in insertion order. -/
def validation_rules : List (String × FieldRules) :=
  [("thc_percentage", ⟨some 0, some 45, none, some 35⟩),
   ("cbd_percentage", ⟨some 0, some 30, none, some 25⟩),
   ("height_cm", ⟨some 30, some 300, some (60, 200), none⟩),
   ("flowering_days", ⟨some 35, some 120, some (49, 84), none⟩),
   ("yield_grams_per_m2", ⟨some 50, some 1000, some (300, 600), none⟩),
   ("sativa_percentage", ⟨some 0, some 100, none, none⟩),
   ("indica_percentage", ⟨some 0, some 100, none, none⟩),
   ("confidence_score", ⟨some 1, some 5, none, none⟩)]

/-- One finding dict.  Fields a given finding kind does not set are `none`
/ `[]`; purely diagnostic payload entries that neither the summary nor any
claim reads (`expected_min`, `expected_max`, `typical_range`, `min_value`,
`max_value`, `thc_max`, `cbd_max`) are not modelled. -/
structure Finding where
  row_index : ℕ
  violation_type : String
  severity : String
  strain_name : String
  field : Option String
  value : Option ℚ
  fields : List String
  sativa_percentage : Option ℚ
  indica_percentage : Option ℚ
  total_percentage : Option ℚ
  note : Option String
  deriving DecidableEq

/-- `df.loc[idx].get('strain_name', 'Unknown')`. -/
def rowStrainName (r : DFRow) : String := r.strainName.getD "Unknown"

/-- The indices and rows passing a boolean mask, in order —
`df[mask].index.tolist()` together with the row data. -/
def rowsWhere (df : DataFrame) (p : DFRow → Bool) : List (ℕ × DFRow) :=
  df.rows.enum.filter (fun ir => p ir.2)

/-- A bound-check finding of `_check_field_outliers`. -/
def boundFinding (idx : ℕ) (cf : String) (v : Option ℚ) (vt sev sn : String) : Finding :=
  ⟨idx, vt, sev, sn, some cf, v, [], none, none, none, none⟩

/-- `_check_field_outliers(df, field, rules)` — the four mask-and-append
loops, in source order: `below_minimum` and `above_maximum` (severity
`critical`), then `below_typical` and `above_typical` (severity `warning`,
only when the rules carry a `typical_range`).  A NaN cell fails every
comparison, as in pandas. -/
def _check_field_outliers (df : DataFrame) (field : String) (rules : FieldRules) :
    List Finding :=
  let fields_to_check :=
    (if (field ++ "_min") ∈ df.columns then [field ++ "_min"] else []) ++
    (if (field ++ "_max") ∈ df.columns then [field ++ "_max"] else []) ++
    (if field ∈ df.columns then [field] else [])
  fields_to_check.foldl
    (fun acc cf =>
      let minViol :=
        match rules.rmin with
        | some m =>
          (rowsWhere df (fun r =>
            match r.vals cf with
            | some v => v < m
            | none => false)).map
            (fun ir => boundFinding ir.1 cf (ir.2.vals cf) "below_minimum" "critical"
              (rowStrainName ir.2))
        | none => []
      let maxViol :=
        match rules.rmax with
        | some m =>
          (rowsWhere df (fun r =>
            match r.vals cf with
            | some v => m < v
            | none => false)).map
            (fun ir => boundFinding ir.1 cf (ir.2.vals cf) "above_maximum" "critical"
              (rowStrainName ir.2))
        | none => []
      let belowTyp :=
        match rules.typical_range with
        | some tr =>
          (rowsWhere df (fun r =>
            match r.vals cf with
            | some v => (rules.rmin.getD 0) ≤ v ∧ v < tr.1
            | none => false)).map
            (fun ir => boundFinding ir.1 cf (ir.2.vals cf) "below_typical" "warning"
              (rowStrainName ir.2))
        | none => []
      let aboveTyp :=
        match rules.typical_range with
        | some tr =>
          (rowsWhere df (fun r =>
            match r.vals cf with
            | some v => (match rules.rmax with
                | some m => decide (v ≤ m)
                | none => true) && decide (tr.2 < v)
            | none => false)).map
            (fun ir => boundFinding ir.1 cf (ir.2.vals cf) "above_typical" "warning"
              (rowStrainName ir.2))
        | none => []
      acc ++ minViol ++ maxViol ++ belowTyp ++ aboveTyp)
    []

/-- The `critical_outliers` accumulation loop of `detect_outliers`: a field
is bound-checked only when its PLAIN name is a column of the frame
(`if field in df.columns`). -/
def criticalOutliersList (df : DataFrame) : List Finding :=
  validation_rules.foldl
    (fun acc fr =>
      if fr.1 ∈ df.columns then acc ++ _check_field_outliers df fr.1 fr.2 else acc)
    []

/-- `min_max_pairs` of `_check_impossible_combinations`. -/
def min_max_pairs : List (String × String) :=
  [("thc_percentage_min", "thc_percentage_max"),
   ("cbd_percentage_min", "cbd_percentage_max"),
   ("height_cm_min", "height_cm_max"),
   ("flowering_days_min", "flowering_days_max"),
   ("yield_grams_per_m2_min", "yield_grams_per_m2_max")]

/-- A `min_greater_than_max` finding. -/
def minMaxFinding (idx : ℕ) (fmin fmax sn : String) : Finding :=
  ⟨idx, "min_greater_than_max", "critical", sn, none, none, [fmin, fmax],
   none, none, none, none⟩

/-- The `min > max` part of `_check_impossible_combinations`. -/
def minMaxViolations (df : DataFrame) : List Finding :=
  min_max_pairs.foldl
    (fun acc p =>
      if p.1 ∈ df.columns ∧ p.2 ∈ df.columns then
        acc ++ (rowsWhere df (fun r =>
          match r.vals p.1, r.vals p.2 with
          | some a, some b => b < a
          | _, _ => false)).map
          (fun ir => minMaxFinding ir.1 p.1 p.2 (rowStrainName ir.2))
      else acc)
    []

/-- A `genetics_not_100_percent` finding; severity is `warning` when the
deviation of `sativa + indica` from 100 is at most 5, else `critical`. -/
def geneticsFinding (idx : ℕ) (s i : ℚ) (sn : String) : Finding :=
  ⟨idx, "genetics_not_100_percent",
   if qAbs (qSub (qAdd s i) 100) ≤ 5 then "warning" else "critical",
   sn, none, none, [], some s, some i, some (qAdd s i), none⟩

/-- The row mask of the genetics check: both percentages non-null and
`abs(sativa + indica - 100) > 1`. -/
def geneticsCond (r : DFRow) : Bool :=
  match r.vals "sativa_percentage", r.vals "indica_percentage" with
  | some s, some i => 1 < qAbs (qSub (qAdd s i) 100)
  | _, _ => false

/-- The genetics part of `_check_impossible_combinations`. -/
def geneticsViolations (df : DataFrame) : List Finding :=
  if "sativa_percentage" ∈ df.columns ∧ "indica_percentage" ∈ df.columns then
    (rowsWhere df geneticsCond).map
      (fun ir =>
        geneticsFinding ir.1 ((ir.2.vals "sativa_percentage").getD 0)
          ((ir.2.vals "indica_percentage").getD 0) (rowStrainName ir.2))
  else []

/-- A `high_thc_and_cbd` finding. -/
def highThcCbdFinding (idx : ℕ) (sn : String) : Finding :=
  ⟨idx, "high_thc_and_cbd", "warning", sn, none, none, [], none, none, none,
   some "Rare but possible - verify source data"⟩

/-- The `thc_max > 20 and cbd_max > 15` part of
`_check_impossible_combinations`. -/
def highThcCbdViolations (df : DataFrame) : List Finding :=
  if "thc_percentage_max" ∈ df.columns ∧ "cbd_percentage_max" ∈ df.columns then
    (rowsWhere df (fun r =>
      match r.vals "thc_percentage_max", r.vals "cbd_percentage_max" with
      | some t, some c => 20 < t ∧ 15 < c
      | _, _ => false)).map
      (fun ir => highThcCbdFinding ir.1 (rowStrainName ir.2))
  else []

/-- `_check_impossible_combinations(df)`, the three parts in source order. -/
def _check_impossible_combinations (df : DataFrame) : List Finding :=
  minMaxViolations df ++ geneticsViolations df ++ highThcCbdViolations df

/-- A suspicious-pattern finding (no row index, no strain name). -/
structure SuspiciousFinding where
  pattern_type : String
  field : Option String
  severity : String
  note : String
  deriving DecidableEq

/-- `numeric_fields` of the round-number check. -/
def numeric_fields : List String :=
  ["thc_percentage_min", "thc_percentage_max", "cbd_percentage_min", "cbd_percentage_max"]

/-- Python float `x % 5 == 0`: `x` is an integer multiple of 5. -/
def isMultipleOf5 (q : ℚ) : Bool := q.den = 1 && q.num % 5 = 0

/-- The round-number part of `_check_suspicious_patterns`. -/
def roundNumberFindings (df : DataFrame) : List SuspiciousFinding :=
  numeric_fields.foldl
    (fun acc f =>
      if f ∈ df.columns then
        let roundValues := (df.rows.filter (fun r =>
          match r.vals f with
          | some v => isMultipleOf5 v
          | none => false)).length
        let totalValues := (df.rows.filter (fun r => (r.vals f).isSome)).length
        if 0 < totalValues then
          if 80 < qMul (qDiv ((roundValues : ℚ)) ((totalValues : ℚ))) 100 then
            acc ++ [⟨"too_many_round_numbers", some f, "warning",
              "High percentage of round numbers may indicate AI estimation"⟩]
          else acc
        else acc
      else acc)
    []

/-- `key_fields` of the duplicate check. -/
def key_fields : List String :=
  ["thc_percentage_max", "cbd_percentage_max", "flowering_days_max"]

/-- `df.duplicated(subset=available, keep=False).sum()`: the number of rows
whose key tuple occurs more than once (pandas `duplicated` treats NaN cells
as equal to each other). -/
def duplicateRowCount (df : DataFrame) (available : List String) : ℕ :=
  (df.rows.filter
    (fun r =>
      2 ≤ (df.rows.filter (fun r2 => available.map r2.vals = available.map r.vals)).length)).length

/-- The duplicate part of `_check_suspicious_patterns`; the float literal
`0.1` of `len(df) * 0.1` is modelled exactly (for integer counts against
`len(df)/10` the double rounding of `0.1` can never flip the strict
comparison). -/
def highDuplicateFindings (df : DataFrame) : List SuspiciousFinding :=
  if 100 < df.rows.length then
    let available := key_fields.filter (fun f => f ∈ df.columns)
    if 2 ≤ available.length then
      let dup := duplicateRowCount df available
      if qMul ((df.rows.length : ℚ)) (mkRat 1 10) < ((dup : ℚ)) then
        [⟨"high_duplicate_rate", none, "warning",
          "High duplicate rate in key fields may indicate data quality issues"⟩]
      else []
    else []
  else []

/-- `_check_suspicious_patterns(df)`. -/
def _check_suspicious_patterns (df : DataFrame) : List SuspiciousFinding :=
  roundNumberFindings df ++ highDuplicateFindings df

/-- The summary dict of `_generate_summary`.  `clean_records` is a Python
int subtraction and may be negative, hence `ℤ`. -/
structure OutlierSummary where
  total_records : ℕ
  total_outliers : ℕ
  critical_outliers : ℕ
  warnings : ℕ
  clean_records : ℤ
  outlier_percentage : ℚ
  data_quality_score : ℚ
  deriving DecidableEq

/-- `sum(1 for o in l if o.get('severity') == sev)`. -/
def countSeverity (l : List Finding) (sev : String) : ℕ :=
  (l.filter (fun f => f.severity = sev)).length

/-- `_generate_summary(outlier_results)`: counts over the
`critical_outliers` and `impossible_values` lists only. -/
def _generate_summary (crit imp : List Finding) (total_records : ℕ) : OutlierSummary :=
  let total_outliers := crit.length + imp.length
  let critical_count := countSeverity crit "critical" + countSeverity imp "critical"
  let warning_count := countSeverity crit "warning" + countSeverity imp "warning"
  ⟨total_records, total_outliers, critical_count, warning_count,
   (total_records : ℤ) - (total_outliers : ℤ),
   if 0 < total_records then qMul (qDiv ((total_outliers : ℚ)) ((total_records : ℚ))) 100 else 0,
   if 0 < total_records then
     qMax 0 (qSub 100 (qMul (qDiv ((total_outliers : ℚ)) ((total_records : ℚ))) 100))
   else 0⟩

/-- The `outlier_results` dict returned by `detect_outliers` (its
`warnings` list is initialised empty and never appended to). -/
structure OutlierReport where
  critical_outliers : List Finding
  warnings : List Finding
  impossible_values : List Finding
  suspicious_patterns : List SuspiciousFinding
  summary : OutlierSummary

/-- `detect_outliers(df)`. -/
def detect_outliers (df : DataFrame) : OutlierReport :=
  let crit := criticalOutliersList df
  let imp := _check_impossible_combinations df
  let susp := _check_suspicious_patterns df
  ⟨crit, [], imp, susp, _generate_summary crit imp df.rows.length⟩

end OutlierDetection

/-! ## Helper lemmas shared by several claims -/

theorem dictGet_guardedUpdate (d e : Dict) (k : String) (h : (dictKeys e).Nodup) :
    dictGet (if e.isEmpty then d else dictUpdate d e) k =
      ((dictGet e k).orElse (fun _ => dictGet d k)) := by
  cases e with
  | nil => simp [dictGet, Option.orElse]
  | cons kv rest =>
    rw [if_neg (by simp), dictGet_dictUpdate d (kv :: rest) k h]

theorem foldl_weight_sum (l : List (String × ℕ)) (b : Dict) (acc : ℕ) :
    l.foldl (fun a fw => if MedallionProcessor.fieldCounted b fw.1 then a + fw.2 else a) acc
      = acc + (((l.filter (fun fw => MedallionProcessor.fieldCounted b fw.1)).map Prod.snd).sum) := by
  induction l generalizing acc with
  | nil => simp
  | cons fw rest ih =>
    by_cases h : MedallionProcessor.fieldCounted b fw.1
    · simp only [List.foldl_cons, if_pos h, List.filter_cons, h]
      rw [ih]
      simp [Nat.add_assoc]
    · simp only [List.foldl_cons, if_neg h, List.filter_cons]
      rw [ih]

/-! ## Claim C1 -/

/-- The `re.finditer` group-1 capture sequences on the page text
`"THC: high. 20% THC"`, hand-traced for the three `thc_content` patterns:
pattern 1 `THC:?\s*([^\n\.]+?)(?:\.|\n|$)` matches once with group
`"high"` (the lazy group stops at the first dot; the trailing `"THC"` has
no following group character); pattern 2 likewise captures `"high"`;
pattern 3 `([0-9]+(?:\.[0-9]+)?(?:\s*-\s*[0-9]+(?:\.[0-9]+)?)?\s*%\s*THC)`
captures `"20% THC"`.  No pattern of the five other fields matches this
text, so their capture lists are empty. -/
def thcFinditerExample : String → List String := fun p =>
  if p = "THC:?\\s*([^\\n\\.]+?)(?:\\.|\\n|$)" then ["high"]
  else if p = "(?:THC|thc)\\s*(?:content|level|percentage)?:?\\s*([^\\n\\.]+?)(?:\\.|\\n|$)" then
    ["high"]
  else if p = "([0-9]+(?:\\.[0-9]+)?(?:\\s*-\\s*[0-9]+(?:\\.[0-9]+)?)?\\s*%\\s*THC)" then
    ["20% THC"]
  else []

/-- The ordered pattern list of the `thc_content` field. -/
def thc_patterns : List String :=
  ((CannabisDataExtractor.patterns.find? (fun fp => fp.1 == "thc_content")).map Prod.snd).getD []

/-- C1 (code bug): the claim says that within a field, evaluation stops at
the first pattern that matches, and that the stored `_raw` value equals the
first capture group of the earliest matching pattern.  On the page text
`"THC: high. 20% THC"` the earliest `thc_content` pattern that matches
captures `"high"`, yet `_extract_with_patterns` stores `"20% THC"`: the
source's `break` leaves only the innermost match loop and its
`if … in pattern_data: continue` is the last statement of the field loop's
body, so every later matching pattern overwrites the value — the LAST
matching pattern wins, not the first. -/
theorem c1_pattern_first_match_bug :
    dictGet (CannabisDataExtractor._extract_with_patterns thcFinditerExample) "thc_content_raw"
        = some "20% THC"
      ∧ CannabisDataExtractor.fieldValueFirstPattern thcFinditerExample thc_patterns
        = some "high"
      ∧ CannabisDataExtractor.fieldValueLastPattern thcFinditerExample thc_patterns
        = some "20% THC" := by
  decide

/-! ## Claim C2 -/

/-- C2: `extract_strain_data` merges the five strategy outputs in the fixed
order tables → descriptions → patterns → images → metadata with
last-writer-wins semantics: for any strategy outputs (finite dicts, which
never carry duplicate keys) and any field key, the merged `raw_data` looks
the key up in the latest strategy first, so a value produced by a later
strategy is the one present in the returned bronze record. -/
theorem c2_merge_last_writer_wins
    (t d p i m : Dict)
    (ht : (dictKeys t).Nodup) (hd : (dictKeys d).Nodup) (hp : (dictKeys p).Nodup)
    (hi : (dictKeys i).Nodup) (hm : (dictKeys m).Nodup) (k : String) :
    dictGet (CannabisDataExtractor.extract_strain_data_raw t d p i m) k =
      ((dictGet m k).orElse (fun _ =>
        ((dictGet i k).orElse (fun _ =>
          ((dictGet p k).orElse (fun _ =>
            ((dictGet d k).orElse (fun _ => dictGet t k)))))))) := by
  simp only [CannabisDataExtractor.extract_strain_data_raw]
  rw [dictGet_guardedUpdate _ m k hm, dictGet_guardedUpdate _ i k hi,
    dictGet_guardedUpdate _ p k hp, dictGet_guardedUpdate _ d k hd,
    dictGet_guardedUpdate _ t k ht]
  cases dictGet m k <;> cases dictGet i k <;> cases dictGet p k <;>
    cases dictGet d k <;> cases dictGet t k <;> rfl

/-- C2 witness: a key produced by the table strategy and the pattern
strategy ends up with the pattern strategy's value. -/
theorem c2_merge_last_writer_wins_witness :
    dictGet (CannabisDataExtractor.extract_strain_data_raw
        [("height_raw", "120cm"), ("height_source", "Table 1")] []
        [("height_raw", "180cm"), ("height_source", "Pattern matching")] [] [])
      "height_raw" = some "180cm" :=
  (c2_merge_last_writer_wins
      [("height_raw", "120cm"), ("height_source", "Table 1")] []
      [("height_raw", "180cm"), ("height_source", "Pattern matching")] [] []
      (by decide) (by decide) (by decide) (by decide) (by decide)
      "height_raw").trans (by decide)

/-! ## Claim C3 -/

/-- The weighted sum of the seven source fields that count, phrased as the
specification words it. -/
def weightedCountSpec (bronze : Dict) : ℕ :=
  (((MedallionProcessor.field_weights.filter
      (fun fw => MedallionProcessor.fieldCounted bronze fw.1)).map Prod.snd).sum)

/-- C3: the confidence score is the weighted-presence percentage over the
seven weighted source fields, bucketed with inclusive thresholds.  A field
counts iff it is present with a trimmed value longer than 2 characters;
the percentage is (counted weights / all weights) × 100 with the weight
total 14; the bucket boundaries are inclusive: 90 → 5, 70 → 4, 50 → 3,
30 → 2, and anything below 30 (e.g. 29.9 = 299/10) → 1. -/
theorem c3_confidence_score :
    (∀ bronze : Dict, MedallionProcessor._calculate_confidence bronze =
        MedallionProcessor.confidenceBucket
          ((weightedCountSpec bronze : ℚ) / (MedallionProcessor.total_possible : ℚ) * 100))
      ∧ MedallionProcessor.total_possible = 14
      ∧ (∀ (bronze : Dict) (field : String),
          MedallionProcessor.fieldCounted bronze field = true ↔
            ∃ s, dictGet bronze field = some s ∧ 2 < (PyStr.strip s).length)
      ∧ MedallionProcessor.confidenceBucket 90 = 5
      ∧ MedallionProcessor.confidenceBucket 70 = 4
      ∧ MedallionProcessor.confidenceBucket 50 = 3
      ∧ MedallionProcessor.confidenceBucket 30 = 2
      ∧ MedallionProcessor.confidenceBucket (mkRat 299 10) = 1
      ∧ (∀ p : ℚ, p < 30 → MedallionProcessor.confidenceBucket p = 1) := by
  refine ⟨?_, by decide, ?_, by decide, by decide, by decide, by decide, ?_, ?_⟩
  · intro bronze
    rw [MedallionProcessor._calculate_confidence, qMul_eq, qDiv_eq,
      MedallionProcessor.actual_score, foldl_weight_sum, Nat.zero_add, weightedCountSpec]
  · intro bronze field
    unfold MedallionProcessor.fieldCounted
    cases hg : dictGet bronze field with
    | none => simp
    | some s =>
      constructor
      · intro h
        refine ⟨s, rfl, ?_⟩
        have := of_decide_eq_true (Bool.and_elim_right h)
        exact this
      · rintro ⟨s', hs', h⟩
        obtain rfl : s = s' := by injection hs'
        have hne : s ≠ "" := by
          intro he
          rw [he] at h
          simp [PyStr.strip] at h
        simp [hne, h]
  · have h : ((299 : ℚ)) / 10 < 30 := by norm_num
    rw [(by rw [Rat.mkRat_eq_div]; norm_num : mkRat 299 10 = ((299 : ℚ)) / 10)]
    unfold MedallionProcessor.confidenceBucket
    rw [if_neg (by linarith), if_neg (by linarith), if_neg (by linarith), if_neg (by linarith)]
  · intro q hq
    unfold MedallionProcessor.confidenceBucket
    rw [if_neg (by linarith), if_neg (by linarith), if_neg (by linarith), if_neg (by linarith)]

/-- C3 witness: a bronze record with `height_raw` ("120cm", weight 2) and
`thc_content_raw` ("18%", weight 3) has 5 of 14 weight points — a
percentage below 50 and at least 30, so confidence 2 — and the spec-side
formula on it agrees with the code; the bucket facts are discharged at
29.9 and at the boundaries. -/
theorem c3_confidence_score_witness :
    MedallionProcessor._calculate_confidence
        [("height_raw", "120cm"), ("thc_content_raw", "18%")] =
      MedallionProcessor.confidenceBucket
        ((weightedCountSpec [("height_raw", "120cm"), ("thc_content_raw", "18%")] : ℚ)
          / (MedallionProcessor.total_possible : ℚ) * 100)
      ∧ MedallionProcessor.fieldCounted [("height_raw", "120cm")] "height_raw" = true
      ∧ MedallionProcessor.confidenceBucket (mkRat 299 10) = 1
      ∧ MedallionProcessor._calculate_confidence
          [("height_raw", "120cm"), ("thc_content_raw", "18%")] = 2 :=
  ⟨c3_confidence_score.1 [("height_raw", "120cm"), ("thc_content_raw", "18%")],
   (c3_confidence_score.2.2.1 [("height_raw", "120cm")] "height_raw").mpr
     ⟨"120cm", by decide, by decide⟩,
   c3_confidence_score.2.2.2.2.2.2.2.1,
   by decide⟩

/-! ## Claims C4 and C5 -/

/-- The raw text contains none of the three qualitative height terms. -/
def noQualTerm (s : String) : Prop :=
  PyStr.containsSub (PyStr.lower s) "short" = false
    ∧ PyStr.containsSub (PyStr.lower s) "medium" = false
    ∧ PyStr.containsSub (PyStr.lower s) "tall" = false

theorem reSearchQ_empty (units : List String) : PyRe.reSearchQ units "" = none := rfl

/-- C4 counterexample: the claim states the feet-scale conversion constant
as 2.54×12/100 = 0.3048, but `"5 feet"` actually normalizes to
152.4 = 5 × 30.48, not 5 × 0.3048 = 1.524 — the claim's constant is off by
a factor of 100 (its own example ≈152.4 already requires 30.48). -/
theorem c4_counterexample :
    MedallionProcessor._extract_height_range (some "5 feet") false = some (mkRat 1524 10)
      ∧ ¬ MedallionProcessor._extract_height_range (some "5 feet") false
          = some ((5 : ℚ) * (254 / 100 * 12 / 100)) := by
  constructor
  · decide
  · intro h
    rw [(by decide : MedallionProcessor._extract_height_range (some "5 feet") false
        = some (mkRat 1524 10))] at h
    have h2 : (mkRat 1524 10 : ℚ) = (5 : ℚ) * (254 / 100 * 12 / 100) := by
      injection h
    rw [Rat.mkRat_eq_div] at h2
    norm_num at h2

/-- C4 (amended): height normalization.  If the raw text contains a
qualitative term the fixed cm value from the conversion table is returned
(in the code's precedence short, medium, tall); otherwise a centimeter-
scale (optionally ranged) number is taken directly; else a feet-scale
number is multiplied by the fixed conversion constant 30.48 = 2.54×12
feet-to-cm.  In particular `"5 feet"` yields
height_cm_min = height_cm_max = 152.4 and `"80-120cm"` yields
height_cm_min = 80 and height_cm_max = 120. -/
theorem c4_height_normalization :
    (∀ (s : String) (mv : Bool), PyStr.containsSub (PyStr.lower s) "short" = true →
        MedallionProcessor._extract_height_range (some s) mv = some 80)
      ∧ (∀ (s : String) (mv : Bool), PyStr.containsSub (PyStr.lower s) "short" = false →
          PyStr.containsSub (PyStr.lower s) "medium" = true →
          MedallionProcessor._extract_height_range (some s) mv = some 120)
      ∧ (∀ (s : String) (mv : Bool), PyStr.containsSub (PyStr.lower s) "short" = false →
          PyStr.containsSub (PyStr.lower s) "medium" = false →
          PyStr.containsSub (PyStr.lower s) "tall" = true →
          MedallionProcessor._extract_height_range (some s) mv = some 180)
      ∧ MedallionProcessor.feet_to_cm = 254 / 100 * 12
      ∧ (∀ (s : String) (mn : ℚ) (mx : Option ℚ), noQualTerm s →
          PyRe.reSearchQ ["cm"] s = some (mn, mx) →
          MedallionProcessor._extract_height_range (some s) false = some mn
            ∧ MedallionProcessor._extract_height_range (some s) true = some (mx.getD mn))
      ∧ (∀ (s : String) (mn : ℚ) (mx : Option ℚ), noQualTerm s →
          PyRe.reSearchQ ["cm"] s = none →
          PyRe.reSearchQ ["feet", "ft"] s = some (mn, mx) →
          MedallionProcessor._extract_height_range (some s) false
              = some (mn * MedallionProcessor.feet_to_cm)
            ∧ MedallionProcessor._extract_height_range (some s) true
              = some ((mx.getD mn) * MedallionProcessor.feet_to_cm))
      ∧ MedallionProcessor._extract_height_range (some "5 feet") false = some (mkRat 1524 10)
      ∧ MedallionProcessor._extract_height_range (some "5 feet") true = some (mkRat 1524 10)
      ∧ MedallionProcessor._extract_height_range (some "80-120cm") false = some 80
      ∧ MedallionProcessor._extract_height_range (some "80-120cm") true = some 120 := by
  refine ⟨?_, ?_, ?_, ?_, ?_, ?_, by decide, by decide, by decide, by decide⟩
  · intro s mv h
    have hs : s ≠ "" := by
      intro he
      subst he
      exact absurd h (by decide)
    simp [MedallionProcessor._extract_height_range, if_neg hs, h]
  · intro s mv h1 h2
    have hs : s ≠ "" := by
      intro he
      subst he
      exact absurd h2 (by decide)
    simp [MedallionProcessor._extract_height_range, if_neg hs, h1, h2]
  · intro s mv h1 h2 h3
    have hs : s ≠ "" := by
      intro he
      subst he
      exact absurd h3 (by decide)
    simp [MedallionProcessor._extract_height_range, if_neg hs, h1, h2, h3]
  · rw [MedallionProcessor.feet_to_cm, Rat.mkRat_eq_div]
    norm_num
  · intro s mn mx hq hcm
    obtain ⟨h1, h2, h3⟩ := hq
    have hs : s ≠ "" := by
      intro he
      subst he
      rw [reSearchQ_empty] at hcm
      exact Option.noConfusion hcm
    cases mx with
    | none =>
      exact ⟨by simp [MedallionProcessor._extract_height_range, if_neg hs, h1, h2, h3, hcm],
        by simp [MedallionProcessor._extract_height_range, if_neg hs, h1, h2, h3, hcm]⟩
    | some m =>
      exact ⟨by simp [MedallionProcessor._extract_height_range, if_neg hs, h1, h2, h3, hcm],
        by simp [MedallionProcessor._extract_height_range, if_neg hs, h1, h2, h3, hcm]⟩
  · intro s mn mx hq hcm hft
    obtain ⟨h1, h2, h3⟩ := hq
    have hs : s ≠ "" := by
      intro he
      subst he
      rw [reSearchQ_empty] at hft
      exact Option.noConfusion hft
    cases mx with
    | none =>
      exact ⟨by simp [MedallionProcessor._extract_height_range, if_neg hs, h1, h2, h3, hcm,
          hft, qMul_eq],
        by simp [MedallionProcessor._extract_height_range, if_neg hs, h1, h2, h3, hcm,
          hft, qMul_eq]⟩
    | some m =>
      exact ⟨by simp [MedallionProcessor._extract_height_range, if_neg hs, h1, h2, h3, hcm,
          hft, qMul_eq],
        by simp [MedallionProcessor._extract_height_range, if_neg hs, h1, h2, h3, hcm,
          hft, qMul_eq]⟩

/-- C4 witness: the general clauses applied at `"Short plant"` (qualitative)
and `"3-4 feet"` (ranged feet-scale input). -/
theorem c4_height_normalization_witness :
    MedallionProcessor._extract_height_range (some "Short plant") true = some 80
      ∧ MedallionProcessor._extract_height_range (some "3-4 feet") false
        = some (3 * MedallionProcessor.feet_to_cm)
      ∧ MedallionProcessor._extract_height_range (some "3-4 feet") true
        = some (4 * MedallionProcessor.feet_to_cm) :=
  ⟨c4_height_normalization.1 "Short plant" true (by decide),
   (c4_height_normalization.2.2.2.2.2.1 "3-4 feet" 3 (some 4)
      ⟨by decide, by decide, by decide⟩ (by decide) (by decide)).1,
   (c4_height_normalization.2.2.2.2.2.1 "3-4 feet" 3 (some 4)
      ⟨by decide, by decide, by decide⟩ (by decide) (by decide)).2⟩

theorem reSearchN_empty (units : List String) : PyRe.reSearchN units "" = none := rfl

/-- C5: the min/max selection rule shared by the height, flowering-duration
and THC/CBD-percentage normalizers.  Whenever the matched pattern captured
a second number and the max variant is requested, that second number is
returned (times 30.48 for feet, times 7 for weeks); in every other case
the first captured number is returned, so an input whose match carries a
single number produces equal min and max values. -/
theorem c5_min_max_selection :
    (∀ (s : String) (mn : ℚ) (m : ℚ), noQualTerm s →
        PyRe.reSearchQ ["cm"] s = some (mn, some m) →
        MedallionProcessor._extract_height_range (some s) false = some mn
          ∧ MedallionProcessor._extract_height_range (some s) true = some m)
      ∧ (∀ (s : String) (mn : ℚ), noQualTerm s →
          PyRe.reSearchQ ["cm"] s = some (mn, none) →
          MedallionProcessor._extract_height_range (some s) true
              = MedallionProcessor._extract_height_range (some s) false
            ∧ MedallionProcessor._extract_height_range (some s) false = some mn)
      ∧ (∀ (s : String) (mn : ℚ) (m : ℚ), noQualTerm s →
          PyRe.reSearchQ ["cm"] s = none →
          PyRe.reSearchQ ["feet", "ft"] s = some (mn, some m) →
          MedallionProcessor._extract_height_range (some s) false
              = some (mn * MedallionProcessor.feet_to_cm)
            ∧ MedallionProcessor._extract_height_range (some s) true
              = some (m * MedallionProcessor.feet_to_cm))
      ∧ (∀ (s : String) (mn : ℚ), noQualTerm s →
          PyRe.reSearchQ ["cm"] s = none →
          PyRe.reSearchQ ["feet", "ft"] s = some (mn, none) →
          MedallionProcessor._extract_height_range (some s) true
              = MedallionProcessor._extract_height_range (some s) false
            ∧ MedallionProcessor._extract_height_range (some s) false
              = some (mn * MedallionProcessor.feet_to_cm))
      ∧ (∀ (s : String) (mn m : ℕ),
          PyRe.reSearchN ["weeks", "week", "wks", "wk"] s = some (mn, some m) →
          MedallionProcessor._extract_flowering_range (some s) false
              = some (mn * MedallionProcessor.weeks_to_days)
            ∧ MedallionProcessor._extract_flowering_range (some s) true
              = some (m * MedallionProcessor.weeks_to_days))
      ∧ (∀ (s : String) (mn : ℕ),
          PyRe.reSearchN ["weeks", "week", "wks", "wk"] s = some (mn, none) →
          MedallionProcessor._extract_flowering_range (some s) true
              = MedallionProcessor._extract_flowering_range (some s) false
            ∧ MedallionProcessor._extract_flowering_range (some s) false
              = some (mn * MedallionProcessor.weeks_to_days))
      ∧ (∀ (s : String) (mn m : ℕ),
          PyRe.reSearchN ["weeks", "week", "wks", "wk"] s = none →
          PyRe.reSearchN ["days", "day"] s = some (mn, some m) →
          MedallionProcessor._extract_flowering_range (some s) false = some mn
            ∧ MedallionProcessor._extract_flowering_range (some s) true = some m)
      ∧ (∀ (s : String) (mn : ℕ),
          PyRe.reSearchN ["weeks", "week", "wks", "wk"] s = none →
          PyRe.reSearchN ["days", "day"] s = some (mn, none) →
          MedallionProcessor._extract_flowering_range (some s) true
              = MedallionProcessor._extract_flowering_range (some s) false
            ∧ MedallionProcessor._extract_flowering_range (some s) false = some mn)
      ∧ (∀ (s : String) (mn m : ℚ), PyRe.reSearchQ ["%"] s = some (mn, some m) →
          MedallionProcessor._extract_percentage_range (some s) false = some mn
            ∧ MedallionProcessor._extract_percentage_range (some s) true = some m)
      ∧ (∀ (s : String) (mn : ℚ), PyRe.reSearchQ ["%"] s = some (mn, none) →
          MedallionProcessor._extract_percentage_range (some s) true
              = MedallionProcessor._extract_percentage_range (some s) false
            ∧ MedallionProcessor._extract_percentage_range (some s) false = some mn) := by
  have hthem : ∀ (s : String) (units : List String) (r : ℚ × Option ℚ),
      PyRe.reSearchQ units s = some r → s ≠ "" := by
    intro s units r hq he
    subst he
    rw [reSearchQ_empty] at hq
    exact Option.noConfusion hq
  have hthemN : ∀ (s : String) (units : List String) (r : ℕ × Option ℕ),
      PyRe.reSearchN units s = some r → s ≠ "" := by
    intro s units r hq he
    subst he
    rw [reSearchN_empty] at hq
    exact Option.noConfusion hq
  refine ⟨?_, ?_, ?_, ?_, ?_, ?_, ?_, ?_, ?_, ?_⟩
  · intro s mn m hq hcm
    obtain ⟨h1, h2, h3⟩ := hq
    have hs := hthem s ["cm"] _ hcm
    exact ⟨by simp [MedallionProcessor._extract_height_range, if_neg hs, h1, h2, h3, hcm],
      by simp [MedallionProcessor._extract_height_range, if_neg hs, h1, h2, h3, hcm]⟩
  · intro s mn hq hcm
    obtain ⟨h1, h2, h3⟩ := hq
    have hs := hthem s ["cm"] _ hcm
    exact ⟨by simp [MedallionProcessor._extract_height_range, if_neg hs, h1, h2, h3, hcm],
      by simp [MedallionProcessor._extract_height_range, if_neg hs, h1, h2, h3, hcm]⟩
  · intro s mn m hq hcm hft
    obtain ⟨h1, h2, h3⟩ := hq
    have hs := hthem s ["feet", "ft"] _ hft
    exact ⟨by simp [MedallionProcessor._extract_height_range, if_neg hs, h1, h2, h3, hcm, hft,
        qMul_eq],
      by simp [MedallionProcessor._extract_height_range, if_neg hs, h1, h2, h3, hcm, hft,
        qMul_eq]⟩
  · intro s mn hq hcm hft
    obtain ⟨h1, h2, h3⟩ := hq
    have hs := hthem s ["feet", "ft"] _ hft
    exact ⟨by simp [MedallionProcessor._extract_height_range, if_neg hs, h1, h2, h3, hcm, hft,
        qMul_eq],
      by simp [MedallionProcessor._extract_height_range, if_neg hs, h1, h2, h3, hcm, hft,
        qMul_eq]⟩
  · intro s mn m hwk
    have hs := hthemN s _ _ hwk
    exact ⟨by simp [MedallionProcessor._extract_flowering_range, if_neg hs, hwk],
      by simp [MedallionProcessor._extract_flowering_range, if_neg hs, hwk]⟩
  · intro s mn hwk
    have hs := hthemN s _ _ hwk
    exact ⟨by simp [MedallionProcessor._extract_flowering_range, if_neg hs, hwk],
      by simp [MedallionProcessor._extract_flowering_range, if_neg hs, hwk]⟩
  · intro s mn m hwk hdy
    have hs := hthemN s _ _ hdy
    exact ⟨by simp [MedallionProcessor._extract_flowering_range, if_neg hs, hwk, hdy],
      by simp [MedallionProcessor._extract_flowering_range, if_neg hs, hwk, hdy]⟩
  · intro s mn hwk hdy
    have hs := hthemN s _ _ hdy
    exact ⟨by simp [MedallionProcessor._extract_flowering_range, if_neg hs, hwk, hdy],
      by simp [MedallionProcessor._extract_flowering_range, if_neg hs, hwk, hdy]⟩
  · intro s mn m hpc
    have hs := hthem s ["%"] _ hpc
    exact ⟨by simp [MedallionProcessor._extract_percentage_range, if_neg hs, hpc],
      by simp [MedallionProcessor._extract_percentage_range, if_neg hs, hpc]⟩
  · intro s mn hpc
    have hs := hthem s ["%"] _ hpc
    exact ⟨by simp [MedallionProcessor._extract_percentage_range, if_neg hs, hpc],
      by simp [MedallionProcessor._extract_percentage_range, if_neg hs, hpc]⟩

/-- C5 witness: the selection rule applied at `"8-9 weeks"` (ranged week
input: max variant returns the second number × 7) and at `"18%"` (single
number: min and max coincide). -/
theorem c5_min_max_selection_witness :
    MedallionProcessor._extract_flowering_range (some "8-9 weeks") false = some 56
      ∧ MedallionProcessor._extract_flowering_range (some "8-9 weeks") true = some 63
      ∧ MedallionProcessor._extract_percentage_range (some "18%") true
          = MedallionProcessor._extract_percentage_range (some "18%") false
      ∧ MedallionProcessor._extract_percentage_range (some "18%") false = some 18 :=
  ⟨(c5_min_max_selection.2.2.2.2.1 "8-9 weeks" 8 9 (by decide)).1,
   (c5_min_max_selection.2.2.2.2.1 "8-9 weeks" 8 9 (by decide)).2,
   (c5_min_max_selection.2.2.2.2.2.2.2.2.2 "18%" 18 (by decide)).1,
   (c5_min_max_selection.2.2.2.2.2.2.2.2.2 "18%" 18 (by decide)).2⟩

/-! ## Claim C6 -/

theorem mem_rowsWhere (df : OutlierDetection.DataFrame) (p : OutlierDetection.DFRow → Bool)
    (i : ℕ) (r : OutlierDetection.DFRow) :
    (i, r) ∈ OutlierDetection.rowsWhere df p ↔ (df.rows[i]? = some r ∧ p r = true) := by
  rw [OutlierDetection.rowsWhere, List.mem_filter, List.mk_mem_enum_iff_getElem?]

/-- C6: for every row of any dataset whose sativa and indica percentages
are both non-null (the two columns being present), the detector emits a
genetics finding for that row iff |sativa + indica − 100| > 1, and the
finding's severity is `warning` when the deviation is at most 5 and
`critical` otherwise. -/
theorem c6_genetics_tolerance :
    ∀ (df : OutlierDetection.DataFrame) (i : ℕ) (r : OutlierDetection.DFRow) (s ind : ℚ),
      "sativa_percentage" ∈ df.columns → "indica_percentage" ∈ df.columns →
      df.rows[i]? = some r →
      r.vals "sativa_percentage" = some s → r.vals "indica_percentage" = some ind →
      (((∃ f ∈ OutlierDetection.geneticsViolations df, f.row_index = i) ↔ 1 < |s + ind - 100|)
        ∧ (1 < |s + ind - 100| →
            OutlierDetection.geneticsFinding i s ind (OutlierDetection.rowStrainName r)
                ∈ OutlierDetection.geneticsViolations df
              ∧ (OutlierDetection.geneticsFinding i s ind
                  (OutlierDetection.rowStrainName r)).severity
                = if |s + ind - 100| ≤ 5 then "warning" else "critical")) := by
  intro df i r s ind hc1 hc2 hget hsv hin
  have hcond : OutlierDetection.geneticsCond r = true ↔ 1 < |s + ind - 100| := by
    simp only [OutlierDetection.geneticsCond, hsv, hin]
    rw [show qAbs (qSub (qAdd s ind) 100) = |s + ind - 100| by
      rw [qAbs_eq, qSub_eq, qAdd_eq]]
    exact decide_eq_true_iff
  have hviol : OutlierDetection.geneticsViolations df =
      (OutlierDetection.rowsWhere df OutlierDetection.geneticsCond).map
        (fun ir => OutlierDetection.geneticsFinding ir.1
          ((ir.2.vals "sativa_percentage").getD 0)
          ((ir.2.vals "indica_percentage").getD 0) (OutlierDetection.rowStrainName ir.2)) := by
    rw [OutlierDetection.geneticsViolations, if_pos ⟨hc1, hc2⟩]
  constructor
  · constructor
    · rintro ⟨f, hf, hidx⟩
      rw [hviol] at hf
      obtain ⟨ir, hir, rfl⟩ := List.mem_map.mp hf
      obtain ⟨hget', hcond'⟩ := (mem_rowsWhere df _ ir.1 ir.2).mp hir
      have hi : ir.1 = i := hidx
      rw [hi, hget] at hget'
      obtain rfl : ir.2 = r := (Option.some.injEq _ _).mp hget'.symm
      exact hcond.mp hcond'
    · intro hdev
      refine ⟨OutlierDetection.geneticsFinding i s ind (OutlierDetection.rowStrainName r),
        ?_, rfl⟩
      rw [hviol]
      have hmem := (mem_rowsWhere df OutlierDetection.geneticsCond i r).mpr
        ⟨hget, hcond.mpr hdev⟩
      have := List.mem_map_of_mem
        (fun ir => OutlierDetection.geneticsFinding ir.1
          ((ir.2.vals "sativa_percentage").getD 0)
          ((ir.2.vals "indica_percentage").getD 0) (OutlierDetection.rowStrainName ir.2)) hmem
      simpa [hsv, hin] using this
  · intro hdev
    constructor
    · have hmem := (mem_rowsWhere df OutlierDetection.geneticsCond i r).mpr
        ⟨hget, hcond.mpr hdev⟩
      rw [hviol]
      have := List.mem_map_of_mem
        (fun ir => OutlierDetection.geneticsFinding ir.1
          ((ir.2.vals "sativa_percentage").getD 0)
          ((ir.2.vals "indica_percentage").getD 0) (OutlierDetection.rowStrainName ir.2)) hmem
      simpa [hsv, hin] using this
    · show (if qAbs (qSub (qAdd s ind) 100) ≤ 5 then "warning" else "critical") = _
      rw [show qAbs (qSub (qAdd s ind) 100) = |s + ind - 100| by
        rw [qAbs_eq, qSub_eq, qAdd_eq]]

/-- A dataset row carrying only the two genetics percentages. -/
def c6Row (s ind : ℚ) : OutlierDetection.DFRow :=
  ⟨fun k => if k = "sativa_percentage" then some s
    else if k = "indica_percentage" then some ind else none, some "X"⟩

/-- The three-row dataset of the claim's examples. -/
def c6Frame : OutlierDetection.DataFrame :=
  ⟨["strain_name", "sativa_percentage", "indica_percentage"],
   [c6Row 60 39, c6Row 60 35, c6Row 60 20]⟩

/-- C6 witness: on the concrete dataset, (60, 39) produces no genetics
finding, (60, 35) a `warning` finding, and (60, 20) a `critical` one. -/
theorem c6_genetics_tolerance_witness :
    (¬ ∃ f ∈ OutlierDetection.geneticsViolations c6Frame, f.row_index = 0)
      ∧ OutlierDetection.geneticsFinding 1 60 35 "X"
          ∈ OutlierDetection.geneticsViolations c6Frame
      ∧ (OutlierDetection.geneticsFinding 1 60 35 "X").severity = "warning"
      ∧ OutlierDetection.geneticsFinding 2 60 20 "X"
          ∈ OutlierDetection.geneticsViolations c6Frame
      ∧ (OutlierDetection.geneticsFinding 2 60 20 "X").severity = "critical" := by
  have h0 := c6_genetics_tolerance c6Frame 0 (c6Row 60 39) 60 39
    (by decide) (by decide) rfl rfl rfl
  have h1 := c6_genetics_tolerance c6Frame 1 (c6Row 60 35) 60 35
    (by decide) (by decide) rfl rfl rfl
  have h2 := c6_genetics_tolerance c6Frame 2 (c6Row 60 20) 60 20
    (by decide) (by decide) rfl rfl rfl
  refine ⟨fun hex => absurd (h0.1.mp hex) (by norm_num),
    (h1.2 (by norm_num)).1,
    (h1.2 (by norm_num)).2.trans (by rw [if_pos (by norm_num)]),
    (h2.2 (by norm_num)).1,
    (h2.2 (by norm_num)).2.trans (by rw [if_neg (by norm_num)])⟩

/-! ## Claim C7 -/

/-- A row whose `thc_percentage_min` cell is 60 (far above the hard
maximum 45) and which carries nothing else. -/
def c7Row : OutlierDetection.DFRow :=
  ⟨fun k => if k = "thc_percentage_min" then some 60 else none, some "Y"⟩

/-- The gold-shaped frame: its columns are the gold-record keys, so the
plain column name `thc_percentage` is NOT among them. -/
def c7GoldFrame : OutlierDetection.DataFrame :=
  ⟨["strain_name", "thc_percentage_min"], [c7Row]⟩

/-- The same data with a plain `thc_percentage` column also present. -/
def c7PlainFrame : OutlierDetection.DataFrame :=
  ⟨["strain_name", "thc_percentage_min", "thc_percentage"], [c7Row]⟩

/-- C7 (code bug): the claim says the summary's `critical_outliers` equals
the number of rows with a hard-bound violation, so the gold frame with
`thc_percentage_min = 60` against the hard max 45 must be counted (once).
The code, however, runs `_check_field_outliers` only when the PLAIN field
name is a column (`if field in df.columns`), and a gold dataset has only
the `_min`/`_max` columns — so the row yields no finding at all and
`critical_outliers = 0`.  Adding the plain column makes the very same data
produce exactly the one expected `above_maximum` finding, confirming the
gate (and not the check itself) suppresses it; the code's own demo
(`main()`, `# 60% is impossible`) expects such rows to be flagged. -/
theorem c7_plain_column_gating_bug :
    ((OutlierDetection.validation_rules.find?
        (fun fr => fr.1 == "thc_percentage")).map (fun fr => fr.2.rmax))
        = some (some 45)
      ∧ c7Row.vals "thc_percentage_min" = some 60
      ∧ (OutlierDetection.detect_outliers c7GoldFrame).critical_outliers = []
      ∧ (OutlierDetection.detect_outliers c7GoldFrame).summary.critical_outliers = 0
      ∧ (OutlierDetection.detect_outliers c7PlainFrame).critical_outliers
        = [OutlierDetection.boundFinding 0 "thc_percentage_min" (some 60)
            "above_maximum" "critical" "Y"]
      ∧ (OutlierDetection.detect_outliers c7PlainFrame).summary.critical_outliers = 1 := by
  refine ⟨by decide, by decide, by decide, by decide, ?_, by decide⟩
  decide

/-! ## Claim C8 -/

theorem extract_with_patterns_all_miss (finditer : String → List String)
    (h : ∀ fp ∈ CannabisDataExtractor.patterns, ∀ p ∈ fp.2,
      CannabisDataExtractor.firstTruthyGroup (finditer p) = none) :
    CannabisDataExtractor._extract_with_patterns finditer = [] := by
  unfold CannabisDataExtractor._extract_with_patterns
  suffices hgen : ∀ (l : List (String × List String)) (pd : Dict),
      (∀ fp ∈ l, ∀ p ∈ fp.2, CannabisDataExtractor.firstTruthyGroup (finditer p) = none) →
      l.foldl
        (fun pd fp =>
          fp.2.foldl
            (fun pd2 pat =>
              match CannabisDataExtractor.firstTruthyGroup (finditer pat) with
              | some g =>
                setKey (setKey pd2 (fp.1 ++ "_raw") g) (fp.1 ++ "_source") "Pattern matching"
              | none => pd2)
            pd)
        pd = pd by
    exact hgen CannabisDataExtractor.patterns [] h
  intro l
  induction l with
  | nil =>
    intro pd _
    rfl
  | cons fp rest ih =>
    intro pd h'
    rw [List.foldl_cons]
    have hinner : ∀ (pats : List String) (pd2 : Dict),
        (∀ p ∈ pats, CannabisDataExtractor.firstTruthyGroup (finditer p) = none) →
        pats.foldl
          (fun pd2 pat =>
            match CannabisDataExtractor.firstTruthyGroup (finditer pat) with
            | some g =>
              setKey (setKey pd2 (fp.1 ++ "_raw") g) (fp.1 ++ "_source") "Pattern matching"
            | none => pd2)
          pd2 = pd2 := by
      intro pats
      induction pats with
      | nil =>
        intro pd2 _
        rfl
      | cons p ps ihp =>
        intro pd2 hp
        rw [List.foldl_cons, hp p (List.mem_cons_self p ps)]
        exact ihp pd2 (fun q hq => hp q (List.mem_cons_of_mem p hq))
    rw [hinner fp.2 pd (h' fp (List.mem_cons_self fp rest))]
    exact ih pd (fun q hq => h' q (List.mem_cons_of_mem fp hq))

/-- C8: totality and null-resolution of the core.  Every operation is a
total function of its input in this embedding, and every lookup or
pattern-match failure resolves to `none` or to omission of the field:
a bronze record missing a raw field normalizes that field (and its
variants) to `none`; the confidence score is always within 1…5; the
pattern strategy omits every field none of whose patterns matched
(returning the empty dict when none matched at all); and a dataset with no
columns yields a report with no findings, its summary still counting the
rows. -/
theorem c8_totality_null_resolution :
    (∀ bronze : Dict, dictGet bronze "height_raw" = none →
        (MedallionProcessor.process_bronze_to_gold bronze).gold.height_cm_min = none
          ∧ (MedallionProcessor.process_bronze_to_gold bronze).gold.height_cm_max = none)
      ∧ (∀ bronze : Dict, dictGet bronze "flowering_time_raw" = none →
          (MedallionProcessor.process_bronze_to_gold bronze).gold.flowering_days_min = none
            ∧ (MedallionProcessor.process_bronze_to_gold bronze).gold.flowering_days_max = none)
      ∧ (∀ bronze : Dict, dictGet bronze "thc_content_raw" = none →
          (MedallionProcessor.process_bronze_to_gold bronze).gold.thc_percentage_min = none
            ∧ (MedallionProcessor.process_bronze_to_gold bronze).gold.thc_percentage_max = none)
      ∧ (∀ bronze : Dict, dictGet bronze "cbd_content_raw" = none →
          (MedallionProcessor.process_bronze_to_gold bronze).gold.cbd_percentage_min = none
            ∧ (MedallionProcessor.process_bronze_to_gold bronze).gold.cbd_percentage_max = none)
      ∧ (∀ bronze : Dict, dictGet bronze "genetics_raw" = none →
          (MedallionProcessor.process_bronze_to_gold bronze).gold.sativa_percentage = none
            ∧ (MedallionProcessor.process_bronze_to_gold bronze).gold.indica_percentage = none)
      ∧ (∀ bronze : Dict, dictGet bronze "effects_raw" = none →
          (MedallionProcessor.process_bronze_to_gold bronze).gold.effects_standardized = none)
      ∧ (∀ bronze : Dict, dictGet bronze "flavors_raw" = none →
          (MedallionProcessor.process_bronze_to_gold bronze).gold.flavors_standardized = none)
      ∧ (∀ bronze : Dict,
          1 ≤ (MedallionProcessor.process_bronze_to_gold bronze).gold.confidence_score
            ∧ (MedallionProcessor.process_bronze_to_gold bronze).gold.confidence_score ≤ 5)
      ∧ (∀ finditer : String → List String,
          (∀ fp ∈ CannabisDataExtractor.patterns, ∀ p ∈ fp.2,
            CannabisDataExtractor.firstTruthyGroup (finditer p) = none) →
          CannabisDataExtractor._extract_with_patterns finditer = [])
      ∧ (∀ rows : List OutlierDetection.DFRow,
          (OutlierDetection.detect_outliers ⟨[], rows⟩).critical_outliers = []
            ∧ (OutlierDetection.detect_outliers ⟨[], rows⟩).impossible_values = []
            ∧ (OutlierDetection.detect_outliers ⟨[], rows⟩).suspicious_patterns = [])
      ∧ (∀ df : OutlierDetection.DataFrame,
          (OutlierDetection.detect_outliers df).summary.total_records = df.rows.length) := by
  refine ⟨?_, ?_, ?_, ?_, ?_, ?_, ?_, ?_, extract_with_patterns_all_miss, ?_, fun _ => rfl⟩
  · intro b h
    exact ⟨by simp [MedallionProcessor.process_bronze_to_gold,
        MedallionProcessor._extract_height_range, h],
      by simp [MedallionProcessor.process_bronze_to_gold,
        MedallionProcessor._extract_height_range, h]⟩
  · intro b h
    exact ⟨by simp [MedallionProcessor.process_bronze_to_gold,
        MedallionProcessor._extract_flowering_range, h],
      by simp [MedallionProcessor.process_bronze_to_gold,
        MedallionProcessor._extract_flowering_range, h]⟩
  · intro b h
    exact ⟨by simp [MedallionProcessor.process_bronze_to_gold,
        MedallionProcessor._extract_percentage_range, h],
      by simp [MedallionProcessor.process_bronze_to_gold,
        MedallionProcessor._extract_percentage_range, h]⟩
  · intro b h
    exact ⟨by simp [MedallionProcessor.process_bronze_to_gold,
        MedallionProcessor._extract_percentage_range, h],
      by simp [MedallionProcessor.process_bronze_to_gold,
        MedallionProcessor._extract_percentage_range, h]⟩
  · intro b h
    exact ⟨by simp [MedallionProcessor.process_bronze_to_gold,
        MedallionProcessor._extract_genetics, h],
      by simp [MedallionProcessor.process_bronze_to_gold,
        MedallionProcessor._extract_genetics, h]⟩
  · intro b h
    simp [MedallionProcessor.process_bronze_to_gold, MedallionProcessor._standardize_effects, h]
  · intro b h
    simp [MedallionProcessor.process_bronze_to_gold, MedallionProcessor._standardize_flavors, h]
  · intro b
    have hbucket : ∀ p : ℚ, 1 ≤ MedallionProcessor.confidenceBucket p
        ∧ MedallionProcessor.confidenceBucket p ≤ 5 := by
      intro p
      unfold MedallionProcessor.confidenceBucket
      split
      · omega
      split
      · omega
      split
      · omega
      split
      · omega
      · omega
    exact hbucket _
  · intro rows
    refine ⟨?_, ?_, ?_⟩
    · simp [OutlierDetection.detect_outliers, OutlierDetection.criticalOutliersList,
        OutlierDetection.validation_rules]
    · simp [OutlierDetection.detect_outliers, OutlierDetection._check_impossible_combinations,
        OutlierDetection.minMaxViolations, OutlierDetection.min_max_pairs,
        OutlierDetection.geneticsViolations, OutlierDetection.highThcCbdViolations]
    · simp [OutlierDetection.detect_outliers, OutlierDetection._check_suspicious_patterns,
        OutlierDetection.roundNumberFindings, OutlierDetection.numeric_fields,
        OutlierDetection.highDuplicateFindings, OutlierDetection.key_fields]

/-- A one-cell row used to exercise the column-less dataset case. -/
def c8Row : OutlierDetection.DFRow :=
  ⟨fun k => if k = "thc_percentage_min" then some 60 else none, some "Z"⟩

/-- C8 witness: null-resolution at the empty bronze record, the
always-failing pattern oracle, and a column-less one-row dataset. -/
theorem c8_totality_null_resolution_witness :
    (MedallionProcessor.process_bronze_to_gold []).gold.height_cm_min = none
      ∧ (MedallionProcessor.process_bronze_to_gold []).gold.confidence_score = 1
      ∧ CannabisDataExtractor._extract_with_patterns (fun _ => []) = []
      ∧ (OutlierDetection.detect_outliers ⟨[], [c8Row]⟩).critical_outliers = []
      ∧ (OutlierDetection.detect_outliers ⟨[], [c8Row]⟩).summary.total_records = 1 :=
  ⟨(c8_totality_null_resolution.1 [] rfl).1,
   by decide,
   c8_totality_null_resolution.2.2.2.2.2.2.2.2.1 (fun _ => []) (by decide),
   (c8_totality_null_resolution.2.2.2.2.2.2.2.2.2.1 [c8Row]).1,
   c8_totality_null_resolution.2.2.2.2.2.2.2.2.2.2 ⟨[], [c8Row]⟩⟩

/-! ## Claim C9 -/

/-- The seven bronze keys `process_bronze_to_gold` reads (the only
lookups it performs on the bronze record). -/
def normalizerReadKeys : List String :=
  ["height_raw", "flowering_time_raw", "thc_content_raw", "cbd_content_raw",
   "genetics_raw", "effects_raw", "flavors_raw"]

theorem fieldCounted_congr (b1 b2 : Dict) (f : String)
    (h : dictGet b1 f = dictGet b2 f) :
    MedallionProcessor.fieldCounted b1 f = MedallionProcessor.fieldCounted b2 f := by
  unfold MedallionProcessor.fieldCounted
  rw [h]

/-- C9: the Normalizer is pure.  In this embedding it is a mathematical
function, so two calls on identical input give identical results (first
conjunct, the claim's two-run statement); the bronze record is returned
unchanged inside the result (second conjunct — the source builds
`{'bronze': bronze_data, …}` from the very object it was given and calls
only the non-mutating `dict.get` on it); and the gold record depends on
the bronze record only through the seven keys the Normalizer reads, so
agreeing inputs give equal gold records (read-only extensionality). -/
theorem c9_normalize_pure :
    (∀ bronze : Dict, MedallionProcessor.process_bronze_to_gold bronze
        = MedallionProcessor.process_bronze_to_gold bronze)
      ∧ (∀ bronze : Dict, (MedallionProcessor.process_bronze_to_gold bronze).bronze = bronze)
      ∧ (∀ b1 b2 : Dict, (∀ k ∈ normalizerReadKeys, dictGet b1 k = dictGet b2 k) →
          (MedallionProcessor.process_bronze_to_gold b1).gold
            = (MedallionProcessor.process_bronze_to_gold b2).gold) := by
  refine ⟨fun _ => rfl, fun _ => rfl, ?_⟩
  intro b1 b2 h
  have h1 := h "height_raw" (by decide)
  have h2 := h "flowering_time_raw" (by decide)
  have h3 := h "thc_content_raw" (by decide)
  have h4 := h "cbd_content_raw" (by decide)
  have h5 := h "genetics_raw" (by decide)
  have h6 := h "effects_raw" (by decide)
  have h7 := h "flavors_raw" (by decide)
  have hconf : MedallionProcessor._calculate_confidence b1
      = MedallionProcessor._calculate_confidence b2 := by
    unfold MedallionProcessor._calculate_confidence MedallionProcessor.actual_score
    simp only [MedallionProcessor.field_weights, List.foldl_cons, List.foldl_nil]
    rw [fieldCounted_congr b1 b2 _ h1, fieldCounted_congr b1 b2 _ h2,
      fieldCounted_congr b1 b2 _ h3, fieldCounted_congr b1 b2 _ h4,
      fieldCounted_congr b1 b2 _ h5, fieldCounted_congr b1 b2 _ h6,
      fieldCounted_congr b1 b2 _ h7]
  simp only [MedallionProcessor.process_bronze_to_gold]
  rw [h1, h2, h3, h4, h5, h6, h7, hconf]

/-- A bronze record with one read key and one extra key. -/
def c9BronzeA : Dict := [("height_raw", "120cm"), ("scraper_note", "ignored")]

/-- The same record without the extra key. -/
def c9BronzeB : Dict := [("height_raw", "120cm")]

/-- C9 witness: the bronze record comes back unchanged, and two records
agreeing on the seven read keys produce the same gold record. -/
theorem c9_normalize_pure_witness :
    (MedallionProcessor.process_bronze_to_gold c9BronzeA).bronze = c9BronzeA
      ∧ (MedallionProcessor.process_bronze_to_gold c9BronzeA).gold
        = (MedallionProcessor.process_bronze_to_gold c9BronzeB).gold :=
  ⟨c9_normalize_pure.2.1 c9BronzeA,
   c9_normalize_pure.2.2 c9BronzeA c9BronzeB (by decide)⟩

/-! ## Claim C10 -/

theorem foldl_const_acc {α β : Type} (l : List α) (acc : β) :
    l.foldl (fun a _ => a) acc = acc := by
  induction l generalizing acc with
  | nil => rfl
  | cons x xs ih => exact ih acc

theorem check_field_outliers_nil (cols : List String) (f : String)
    (r : OutlierDetection.FieldRules) :
    OutlierDetection._check_field_outliers ⟨cols, []⟩ f r = [] := by
  obtain ⟨rmin, rmax, tr, tm⟩ := r
  unfold OutlierDetection._check_field_outliers
  cases rmin <;> cases rmax <;> cases tr <;>
    simp [OutlierDetection.rowsWhere, foldl_const_acc]

theorem criticalOutliersList_nil (cols : List String) :
    OutlierDetection.criticalOutliersList ⟨cols, []⟩ = [] := by
  simp [OutlierDetection.criticalOutliersList, OutlierDetection.validation_rules,
    check_field_outliers_nil]

theorem impossible_combinations_nil (cols : List String) :
    OutlierDetection._check_impossible_combinations ⟨cols, []⟩ = [] := by
  simp [OutlierDetection._check_impossible_combinations, OutlierDetection.minMaxViolations,
    OutlierDetection.min_max_pairs, OutlierDetection.geneticsViolations,
    OutlierDetection.highThcCbdViolations, OutlierDetection.rowsWhere]

theorem suspicious_patterns_nil (cols : List String) :
    OutlierDetection._check_suspicious_patterns ⟨cols, []⟩ = [] := by
  simp [OutlierDetection._check_suspicious_patterns, OutlierDetection.roundNumberFindings,
    OutlierDetection.numeric_fields, OutlierDetection.highDuplicateFindings,
    OutlierDetection.key_fields]

/-- C10: on an empty dataset (zero rows, any columns) `detect_outliers`
returns normally with no findings, and its summary reports
total_records = 0, total_outliers = 0, critical/warning counts 0,
clean_records = 0, outlier_percentage = 0 and data_quality_score = 0 —
the empty batch gets quality score 0 (the guarded branch), not 100. -/
theorem c10_empty_dataset (cols : List String) :
    (OutlierDetection.detect_outliers ⟨cols, []⟩).summary
        = ⟨0, 0, 0, 0, 0, 0, 0⟩
      ∧ (OutlierDetection.detect_outliers ⟨cols, []⟩).critical_outliers = []
      ∧ (OutlierDetection.detect_outliers ⟨cols, []⟩).impossible_values = []
      ∧ (OutlierDetection.detect_outliers ⟨cols, []⟩).suspicious_patterns = [] := by
  have hc := criticalOutliersList_nil cols
  have hi := impossible_combinations_nil cols
  have hs := suspicious_patterns_nil cols
  refine ⟨?_, ?_, ?_, ?_⟩
  · show OutlierDetection._generate_summary (OutlierDetection.criticalOutliersList ⟨cols, []⟩)
      (OutlierDetection._check_impossible_combinations ⟨cols, []⟩) 0 = ⟨0, 0, 0, 0, 0, 0, 0⟩
    rw [hc, hi]
    decide
  · exact hc
  · exact hi
  · exact hs
